import Mathlib

/-!
Verification development for the core-quant repository: a shallow embedding
of the strategy data model (src/types/strategy, "part_001"), the condition
builder state transitions (ConditionBuilder, "part_004"), the strategy
builder save path (StrategyBuilder, "part_005"), the Firestore-backed
strategy service (src/services/firebase/strategy-service.ts), the Yahoo
Finance proxy handlers (api/yahoo-finance/history.ts and its shared utils),
and the AES-GCM credential encryption wrapper (src/utils/crypto/index.ts).
TypeScript numbers are embedded as rationals, arrays as lists, optional
fields as Option, and fallible paths as Except/Option.
-/

namespace CoreQuant

/-! ## Strategy data model (types/strategy, source file part_001) -/

/-- Closed enumeration of technical indicator kinds. -/
inductive IndicatorType
  | PRICE | VOLUME | MA | EMA | RSI | MACD | BOLLINGER | STOCHASTIC | OBV | ATR
  deriving DecidableEq, Repr

/-- Price field selector used by price-based indicators. -/
inductive PriceType
  | OPEN | HIGH | LOW | CLOSE | ADJ_CLOSE
  deriving DecidableEq, Repr

/-- The six comparison operators of a condition. -/
inductive ComparisonOperator
  | gt | ge | eq | le | lt | ne
  deriving DecidableEq, Repr

/-- Logical connective used inside groups and between groups. -/
inductive LogicalOperator
  | AND | OR
  deriving DecidableEq, Repr

/-- A parameter value is a number or an enumerated string. -/
inductive ParamValue
  | num (q : Rat)
  | str (s : String)
  deriving DecidableEq, Repr

/-- ConditionParameter: name, value, optional numeric bounds, optional
enumerated options. -/
structure ConditionParameter where
  name : String
  value : ParamValue
  min : Option Rat := none
  max : Option Rat := none
  step : Option Rat := none
  options : Option (List String) := none
  deriving DecidableEq, Repr

/-- StrategyCondition: a left indicator with parameters, a comparison
operator, a literal comparison value, and an optional right indicator
(valueType together with valueParameters). -/
structure StrategyCondition where
  id : String
  type : IndicatorType
  parameters : List ConditionParameter
  operator : ComparisonOperator
  value : Rat
  valueType : Option IndicatorType := none
  valueParameters : Option (List ConditionParameter) := none
  deriving DecidableEq, Repr

/-- ConditionGroup: conditions joined by one logical operator. -/
structure ConditionGroup where
  id : String
  conditions : List StrategyCondition
  operator : LogicalOperator
  deriving DecidableEq, Repr

/-- Signal kind of a trade rule. -/
inductive SignalType
  | BUY | SELL
  deriving DecidableEq, Repr

/-- TradeRule: condition groups joined by one logical operator, tagged
with a signal kind. -/
structure TradeRule where
  id : String
  type : SignalType
  conditionGroups : List ConditionGroup
  operator : LogicalOperator
  deriving DecidableEq, Repr

/-- MoneyManagement block attached to a strategy. -/
structure MoneyManagement where
  initialCapital : Rat
  positionSizing : Rat
  maxPositions : Rat
  stopLoss : Option Rat := none
  takeProfit : Option Rat := none
  trailingStop : Option Rat := none
  deriving DecidableEq, Repr

/-- Strategy record as stored in the document store. -/
structure Strategy where
  id : String
  name : String
  description : String
  createdAt : Nat
  updatedAt : Nat
  userId : String
  buyRules : List TradeRule
  sellRules : List TradeRule
  moneyManagement : MoneyManagement
  isPublic : Bool
  tags : Option (List String) := none
  deriving DecidableEq, Repr

/-! ## Condition builder transitions (ConditionBuilder, source file part_004) -/

/-- The five PriceType option strings, as produced by Object.values. -/
def priceTypeOptions : List String :=
  ["OPEN", "HIGH", "LOW", "CLOSE", "ADJ_CLOSE"]

/-- getDefaultParameters: default parameter list per indicator kind. -/
def getDefaultParameters : IndicatorType → List ConditionParameter
  | IndicatorType.PRICE =>
      [{ name := "priceType", value := ParamValue.str "CLOSE", options := some priceTypeOptions }]
  | IndicatorType.VOLUME => []
  | IndicatorType.MA =>
      [{ name := "period", value := ParamValue.num 20, min := some 1, max := some 200, step := some 1 },
       { name := "priceType", value := ParamValue.str "CLOSE", options := some priceTypeOptions }]
  | IndicatorType.EMA =>
      [{ name := "period", value := ParamValue.num 12, min := some 1, max := some 200, step := some 1 },
       { name := "priceType", value := ParamValue.str "CLOSE", options := some priceTypeOptions }]
  | IndicatorType.RSI =>
      [{ name := "period", value := ParamValue.num 14, min := some 1, max := some 100, step := some 1 }]
  | IndicatorType.MACD =>
      [{ name := "fastPeriod", value := ParamValue.num 12, min := some 1, max := some 100, step := some 1 },
       { name := "slowPeriod", value := ParamValue.num 26, min := some 1, max := some 100, step := some 1 },
       { name := "signalPeriod", value := ParamValue.num 9, min := some 1, max := some 100, step := some 1 },
       { name := "macdPart", value := ParamValue.str "macd", options := some ["macd", "signal", "histogram"] }]
  | IndicatorType.BOLLINGER =>
      [{ name := "period", value := ParamValue.num 20, min := some 1, max := some 100, step := some 1 },
       { name := "stdDev", value := ParamValue.num 2, min := some (1/10), max := some 10, step := some (1/10) },
       { name := "bandPart", value := ParamValue.str "upper", options := some ["upper", "middle", "lower"] }]
  | IndicatorType.STOCHASTIC =>
      [{ name := "kPeriod", value := ParamValue.num 14, min := some 1, max := some 100, step := some 1 },
       { name := "dPeriod", value := ParamValue.num 3, min := some 1, max := some 100, step := some 1 },
       { name := "slowing", value := ParamValue.num 3, min := some 1, max := some 100, step := some 1 },
       { name := "stochPart", value := ParamValue.str "k", options := some ["k", "d"] }]
  | IndicatorType.OBV => []
  | IndicatorType.ATR => []

/-- handleIndicatorChange: switching the left indicator resets its
parameters to the defaults and drops any right-hand indicator target. -/
def handleIndicatorChange (c : StrategyCondition) (newType : IndicatorType) :
    StrategyCondition :=
  { c with
    type := newType
    parameters := getDefaultParameters newType
    valueType := none
    valueParameters := none }

/-- handleValueTypeChange: choosing a comparison target. The select offers
the literal option (modelled as none) or an indicator kind (some t);
choosing an indicator installs its default parameters and zeroes the
literal value, choosing the literal drops the indicator target. -/
def handleValueTypeChange (c : StrategyCondition) (target : Option IndicatorType) :
    StrategyCondition :=
  match target with
  | some t =>
      { c with
        valueType := some t
        valueParameters := some (getDefaultParameters t)
        value := 0 }
  | none =>
      { c with
        valueType := none
        valueParameters := none }

/-- handleAddCondition: the freshly created condition in a group. -/
def newCondition (newId : String) : StrategyCondition :=
  { id := newId
    type := IndicatorType.PRICE
    parameters := getDefaultParameters IndicatorType.PRICE
    operator := ComparisonOperator.gt
    value := 0 }

/-- Exclusivity of the comparison target: either the condition is in the
literal state (no right indicator, no right parameters) or in the
indicator state (indicator kind with its default parameters installed and
the literal value zeroed out). -/
def exclusiveTarget (c : StrategyCondition) : Prop :=
  (c.valueType = none ∧ c.valueParameters = none) ∨
  (∃ t, c.valueType = some t ∧
        c.valueParameters = some (getDefaultParameters t) ∧ c.value = 0)

/-! ## Strategy builder save path (StrategyBuilder, source file part_005) -/

/-- Strategy payload without id and timestamps, as built by handleSave
(TS type Omit of Strategy over id, createdAt, updatedAt). -/
structure StrategyData where
  name : String
  description : String
  userId : String
  buyRules : List TradeRule
  sellRules : List TradeRule
  moneyManagement : MoneyManagement
  isPublic : Bool
  tags : Option (List String) := none
  deriving DecidableEq, Repr

/-- Configuration errors surfaced by handleSave before any persistence. -/
inductive SaveError
  | emptyName | emptyBuyRule | emptySellRule
  deriving DecidableEq, Repr

/-- The persistence call handleSave would make on success. -/
inductive SaveAction
  | create (data : StrategyData)
  | update (strategyId : String) (data : StrategyData)
  deriving DecidableEq, Repr

/-- JavaScript String.prototype.trim on a character list. -/
def trimChars (s : List Char) : List Char :=
  ((s.dropWhile Char.isWhitespace).reverse.dropWhile Char.isWhitespace).reverse

/-- The emptiness test handleSave applies to a rule: no condition groups,
or some group with no conditions. -/
def ruleIncomplete (r : TradeRule) : Bool :=
  r.conditionGroups.isEmpty || r.conditionGroups.any fun g => g.conditions.isEmpty

/-- handleSave: validates the name and both rules, then builds the
strategy payload (singleton buy and sell rule arrays) and issues either a
create or an update depending on edit mode. -/
def handleSave (editId : Option String) (name description userId : String)
    (buyRule sellRule : TradeRule) (mm : MoneyManagement) (isPublic : Bool)
    (tags : List String) : Except SaveError SaveAction :=
  if trimChars name.data = [] then
    Except.error SaveError.emptyName
  else if ruleIncomplete buyRule then
    Except.error SaveError.emptyBuyRule
  else if ruleIncomplete sellRule then
    Except.error SaveError.emptySellRule
  else
    let d : StrategyData :=
      { name := name
        description := description
        userId := userId
        buyRules := [buyRule]
        sellRules := [sellRule]
        moneyManagement := mm
        isPublic := isPublic
        tags := if tags.length > 0 then some tags else none }
    match editId with
    | some sid => Except.ok (SaveAction.update sid d)
    | none => Except.ok (SaveAction.create d)

/-! ## Strategy service (src/services/firebase/strategy-service.ts)

The Firestore collection is embedded as an association list from document
id to Strategy; setDoc overwrites, deleteDoc removes, getDoc is lookup.
The Date.now() clock is passed in explicitly; the nanoid supply is passed
in as the generated id. -/

/-- The strategies collection: document id to strategy record. -/
abbrev Store := List (String × Strategy)

/-- Document lookup (getDoc + exists/data). -/
def Store.get (s : Store) (docId : String) : Option Strategy :=
  List.lookup docId s

/-- Remove every binding of a document id (deleteDoc). -/
def Store.del (s : Store) (docId : String) : Store :=
  List.filter (fun p => p.1 != docId) s

/-- Insert-or-overwrite a document (setDoc). -/
def Store.set (s : Store) (docId : String) (v : Strategy) : Store :=
  (docId, v) :: Store.del s docId

/-- createStrategy: spreads the payload, assigns the generated id and sets
both timestamps to the same Date.now() value, then stores the document
under that id. Returns the new store and the generated id. -/
def createStrategy (s : Store) (now : Nat) (generatedId : String)
    (d : StrategyData) : Store × String :=
  let newStrategy : Strategy :=
    { id := generatedId
      name := d.name
      description := d.description
      createdAt := now
      updatedAt := now
      userId := d.userId
      buyRules := d.buyRules
      sellRules := d.sellRules
      moneyManagement := d.moneyManagement
      isPublic := d.isPublic
      tags := d.tags }
  (Store.set s generatedId newStrategy, generatedId)

/-- getStrategy: the stored record, or none when the document is absent. -/
def getStrategy (s : Store) (strategyId : String) : Option Strategy :=
  Store.get s strategyId

/-- Partial update payload of updateStrategy: every strategy field except
id, createdAt, updatedAt and userId, each optional (TS Partial of Omit). -/
structure StrategyUpdate where
  name : Option String := none
  description : Option String := none
  buyRules : Option (List TradeRule) := none
  sellRules : Option (List TradeRule) := none
  moneyManagement : Option MoneyManagement := none
  isPublic : Option Bool := none
  tags : Option (Option (List String)) := none
  deriving DecidableEq, Repr

/-- updateDoc field merge: provided fields overwrite, absent fields keep
the stored value; updatedAt is always overwritten with the call time. -/
def applyUpdate (old : Strategy) (u : StrategyUpdate) (now : Nat) : Strategy :=
  { old with
    name := u.name.getD old.name
    description := u.description.getD old.description
    buyRules := u.buyRules.getD old.buyRules
    sellRules := u.sellRules.getD old.sellRules
    moneyManagement := u.moneyManagement.getD old.moneyManagement
    isPublic := u.isPublic.getD old.isPublic
    tags := u.tags.getD old.tags
    updatedAt := now }

/-- Failure of a mutation: the document does not exist. -/
inductive ServiceError
  | notFound
  deriving DecidableEq, Repr

/-- updateStrategy: fails when the document is absent, otherwise merges
the payload plus a refreshed updatedAt into the stored record. No caller
identity is taken and no ownership is checked. -/
def updateStrategy (s : Store) (now : Nat) (strategyId : String)
    (u : StrategyUpdate) : Except ServiceError Store :=
  match Store.get s strategyId with
  | none => Except.error ServiceError.notFound
  | some old => Except.ok (Store.set s strategyId (applyUpdate old u now))

/-- deleteStrategy: unconditionally removes the document; succeeds (and
changes nothing) when it is already absent. No ownership is checked. -/
def deleteStrategy (s : Store) (strategyId : String) : Store :=
  Store.del s strategyId

/-- setStrategyVisibility: updateDoc with only isPublic and a refreshed
updatedAt (updateDoc itself fails when the document is absent). No
ownership is checked. -/
def setStrategyVisibility (s : Store) (now : Nat) (strategyId : String)
    (isPublic : Bool) : Except ServiceError Store :=
  match Store.get s strategyId with
  | none => Except.error ServiceError.notFound
  | some old =>
      Except.ok (Store.set s strategyId { old with isPublic := isPublic, updatedAt := now })

/-! ## Group and rule reduction

The repository declares the condition tree types but ships no evaluator;
the reducer below is reconstructed from the specification. -/

/-- One OHLCV bar of the input series. -/
structure Bar where
  date : Nat
  open_ : Rat
  high : Rat
  low : Rat
  close : Rat
  adjClose : Rat
  volume : Rat
  deriving DecidableEq, Repr

/-- Modelled from the spec: the repository contains no group reducer, so
this follows section 4.3 of the specification. A group is the AND or OR
fold of its member conditions' truth values at the bar index, and an empty
group reduces to false at every bar. The per-condition evaluator (left
indicator versus literal or right indicator, false inside warm-up) is the
abstract argument evalCond. -/
def evalGroup (evalCond : List Bar → StrategyCondition → Nat → Bool)
    (bars : List Bar) (g : ConditionGroup) (i : Nat) : Bool :=
  match g.conditions with
  | [] => false
  | cs =>
      match g.operator with
      | LogicalOperator.AND => cs.all fun c => evalCond bars c i
      | LogicalOperator.OR => cs.any fun c => evalCond bars c i

/-- Modelled from the spec: the repository contains no rule reducer, so
this follows section 4.3 of the specification. A rule is the AND or OR
fold of its groups' truth values, and an empty rule (no groups) reduces to
false at every bar. -/
def evalRule (evalCond : List Bar → StrategyCondition → Nat → Bool)
    (bars : List Bar) (r : TradeRule) (i : Nat) : Bool :=
  match r.conditionGroups with
  | [] => false
  | gs =>
      match r.operator with
      | LogicalOperator.AND => gs.all fun g => evalGroup evalCond bars g i
      | LogicalOperator.OR => gs.any fun g => evalGroup evalCond bars g i

/-! ## Yahoo Finance proxy handlers (api/yahoo-finance/history.ts,
shared helpers in api/yahoo-finance/utils, source file part_009)

Strings from the HTTP layer are embedded as character lists. The response
records the HTTP status, the Cache-Control values installed by
setCacheHeaders (s-maxage and stale-while-revalidate seconds), and whether
the upstream Yahoo Finance API was actually called. -/

/-- Request methods distinguished by the handlers. -/
inductive Method
  | GET | OPTIONS | OTHER
  deriving DecidableEq, Repr

/-- Response state accumulated by a handler run. -/
structure ApiRes where
  status : Nat
  cacheControl : Option (Nat × Nat) := none
  corsSet : Bool := false
  fetched : Bool := false
  deriving DecidableEq, Repr

/-- setCacheHeaders: installs s-maxage = cacheTime together with
stale-while-revalidate = 60. -/
def setCacheHeaders (cacheTime : Nat) : Nat × Nat :=
  (cacheTime, 60)

/-- The symbol ticker pattern of both handlers: 1 to 30 characters drawn
from ASCII letters, digits, dot, caret and hyphen. -/
def validSymbol (s : List Char) : Bool :=
  decide (1 ≤ s.length) && decide (s.length ≤ 30) &&
    s.all fun c => c.isAlphanum || c = '.' || c = '^' || c = '-'

/-- The interval whitelist of the history handler. -/
def allowedIntervals : List (List Char) :=
  [['1', 'm'], ['2', 'm'], ['5', 'm'], ['1', '5', 'm'], ['3', '0', 'm'],
   ['6', '0', 'm'], ['9', '0', 'm'], ['1', 'h'], ['1', 'd'], ['5', 'd'],
   ['1', 'w', 'k'], ['1', 'm', 'o'], ['3', 'm', 'o']]

/-- Historical-bars proxy handler: CORS preflight, method check, CORS and
24-hour cache headers, rate limit, required-parameter check, ticker and
interval validation, then the upstream fetch (its outcome abstracted as
upstreamOk). -/
def historyHandler (method : Method) (rateAllowed : Bool)
    (symbol : Option (List Char)) (interval : Option (List Char))
    (upstreamOk : Bool) : ApiRes :=
  if method = Method.OPTIONS then
    { status := 200, corsSet := true }
  else if method ≠ Method.GET then
    { status := 405 }
  else
    let base : ApiRes :=
      { status := 0, corsSet := true, cacheControl := some (setCacheHeaders (3600 * 24)) }
    if rateAllowed = false then
      { base with status := 429 }
    else
      match symbol with
      | none => { base with status := 400 }
      | some sym =>
          let iv := interval.getD ['1', 'd']
          if validSymbol sym = false then
            { base with status := 400 }
          else if (allowedIntervals.contains iv) = false then
            { base with status := 400 }
          else if upstreamOk then
            { base with status := 200, fetched := true }
          else
            { base with status := 404, fetched := true }

/-- JavaScript String.prototype.split with separator comma: never empty,
the empty string splits to one empty piece. -/
def splitComma : List Char → List (List Char)
  | [] => [[]]
  | c :: rest =>
      match splitComma rest with
      | [] => [[]]
      | g :: gs => if c = ',' then [] :: g :: gs else (c :: g) :: gs

/-- Quote proxy handler: CORS preflight, method check, CORS and 60-second
cache headers, rate limit, required-parameter check, comma-split of the
symbol parameter, the at-most-20-symbols limit, per-symbol ticker
validation, then the upstream fetch. -/
def quoteHandler (method : Method) (rateAllowed : Bool)
    (symbol : Option (List Char)) (upstreamOk : Bool) : ApiRes :=
  if method = Method.OPTIONS then
    { status := 200, corsSet := true }
  else if method ≠ Method.GET then
    { status := 405 }
  else
    let base : ApiRes :=
      { status := 0, corsSet := true, cacheControl := some (setCacheHeaders 60) }
    if rateAllowed = false then
      { base with status := 429 }
    else
      match symbol with
      | none => { base with status := 400 }
      | some sym =>
          let symbols := splitComma sym
          if symbols.length = 0 then
            { base with status := 400 }
          else if symbols.length > 20 then
            { base with status := 400 }
          else if symbols.all validSymbol = false then
            { base with status := 400 }
          else if upstreamOk then
            { base with status := 200, fetched := true }
          else
            { base with status := 404, fetched := true }

/-! ## Base64 and the AES-GCM wrapper (src/utils/crypto/index.ts)

arrayBufferToBase64 is btoa over the binary string of the bytes and
base64ToArrayBuffer is atob back to bytes; composed, they are byte-level
base64. Bytes are naturals below 256. The decoder is total where atob is
defined on btoa output and returns none where atob would throw (it does
not validate unused padding bits, as browsers do not). -/

/-- The 64 base64 alphabet characters in order. -/
def b64chars : List Char :=
  ['A', 'B', 'C', 'D', 'E', 'F', 'G', 'H', 'I', 'J', 'K', 'L', 'M',
   'N', 'O', 'P', 'Q', 'R', 'S', 'T', 'U', 'V', 'W', 'X', 'Y', 'Z',
   'a', 'b', 'c', 'd', 'e', 'f', 'g', 'h', 'i', 'j', 'k', 'l', 'm',
   'n', 'o', 'p', 'q', 'r', 's', 't', 'u', 'v', 'w', 'x', 'y', 'z',
   '0', '1', '2', '3', '4', '5', '6', '7', '8', '9', '+', '/']

/-- Sextet to alphabet character. -/
def b64char (n : Nat) : Char :=
  b64chars.getD n 'A'

/-- Alphabet character back to sextet. -/
def b64index (c : Char) : Option Nat :=
  List.findIdx? (fun d => d = c) b64chars

/-- Byte list to base64 character list, three bytes to four characters,
with = padding on a trailing one- or two-byte chunk. -/
def b64encode : List Nat → List Char
  | [] => []
  | [b0] =>
      [b64char (b0 / 4), b64char (b0 % 4 * 16), '=', '=']
  | [b0, b1] =>
      [b64char (b0 / 4), b64char (b0 % 4 * 16 + b1 / 16), b64char (b1 % 16 * 4), '=']
  | b0 :: b1 :: b2 :: rest =>
      b64char (b0 / 4) :: b64char (b0 % 4 * 16 + b1 / 16) ::
        b64char (b1 % 16 * 4 + b2 / 64) :: b64char (b2 % 64) :: b64encode rest

/-- Decode a final four-character chunk, honouring = padding. -/
def b64decodeLast (c0 c1 c2 c3 : Char) : Option (List Nat) :=
  if c3 = '=' then
    if c2 = '=' then
      (b64index c0).bind fun s0 =>
        (b64index c1).map fun s1 => [s0 * 4 + s1 / 16]
    else
      (b64index c0).bind fun s0 =>
        (b64index c1).bind fun s1 =>
          (b64index c2).map fun s2 =>
            [s0 * 4 + s1 / 16, s1 % 16 * 16 + s2 / 4]
  else
    (b64index c0).bind fun s0 =>
      (b64index c1).bind fun s1 =>
        (b64index c2).bind fun s2 =>
          (b64index c3).map fun s3 =>
            [s0 * 4 + s1 / 16, s1 % 16 * 16 + s2 / 4, s2 % 4 * 64 + s3]

/-- Base64 character list back to bytes; none where atob would throw. -/
def b64decode : List Char → Option (List Nat)
  | [] => some []
  | [c0, c1, c2, c3] => b64decodeLast c0 c1 c2 c3
  | c0 :: c1 :: c2 :: c3 :: c4 :: rest =>
      (b64index c0).bind fun s0 =>
        (b64index c1).bind fun s1 =>
          (b64index c2).bind fun s2 =>
            (b64index c3).bind fun s3 =>
              (b64decode (c4 :: rest)).map fun tail =>
                (s0 * 4 + s1 / 16) :: (s1 % 16 * 16 + s2 / 4) :: (s2 % 4 * 64 + s3) :: tail
  | _ => none

/-- The external cryptographic primitives the wrapper calls: TextEncoder
and TextDecoder, PBKDF2 key derivation (generateKey - deterministic in
password and salt), and AES-GCM encrypt/decrypt under a key and IV. -/
structure CryptoPrims where
  utf8encode : String → List Nat
  utf8decode : List Nat → String
  deriveKey : String → List Nat → List Nat
  aesGcmEncrypt : List Nat → List Nat → List Nat → List Nat
  aesGcmDecrypt : List Nat → List Nat → List Nat → Option (List Nat)

/-- The record encryptData returns: ciphertext, salt and IV, each base64. -/
structure EncryptedPayload where
  encryptedData : String
  salt : String
  iv : String
  deriving DecidableEq, Repr

/-- encryptData: derive the key from password and (random, here supplied)
salt, AES-GCM-encrypt the UTF-8 bytes of the data under the (random, here
supplied) IV, and base64 all three outputs. -/
def encryptData (P : CryptoPrims) (data password : String)
    (salt iv : List Nat) : EncryptedPayload :=
  let key := P.deriveKey password salt
  let ciphertext := P.aesGcmEncrypt key iv (P.utf8encode data)
  { encryptedData := String.mk (b64encode ciphertext)
    salt := String.mk (b64encode salt)
    iv := String.mk (b64encode iv) }

/-- decryptData: base64-decode the three inputs, re-derive the key from
the password and the decoded salt, AES-GCM-decrypt, decode UTF-8. Any
failing step (or an AES-GCM authentication failure) yields none. -/
def decryptData (P : CryptoPrims) (encryptedData salt iv password : String) :
    Option String :=
  (b64decode encryptedData.data).bind fun ciphertext =>
    (b64decode salt.data).bind fun saltBytes =>
      (b64decode iv.data).bind fun ivBytes =>
        let key := P.deriveKey password saltBytes
        (P.aesGcmDecrypt key ivBytes ciphertext).map fun plaintext =>
          P.utf8decode plaintext

/-! ## Helper lemmas -/

/-- Decoding the alphabet character of a sextet recovers the sextet. -/
theorem b64index_b64char_fin : ∀ s : Fin 64, b64index (b64char s.val) = some s.val := by
  decide

/-- Alphabet characters are never the padding character. -/
theorem b64char_ne_pad_fin : ∀ s : Fin 64, b64char s.val ≠ '=' := by
  decide

theorem b64index_b64char (s : Nat) (h : s < 64) : b64index (b64char s) = some s :=
  b64index_b64char_fin ⟨s, h⟩

theorem b64char_ne_pad (s : Nat) (h : s < 64) : b64char s ≠ '=' :=
  b64char_ne_pad_fin ⟨s, h⟩

/-- Encoding a nonempty byte list yields a nonempty character list. -/
theorem b64encode_cons (l : List Nat) (h : l ≠ []) : ∃ x xs, b64encode l = x :: xs := by
  match l with
  | [b0] => exact ⟨_, _, rfl⟩
  | [b0, b1] => exact ⟨_, _, rfl⟩
  | b0 :: b1 :: b2 :: rest => exact ⟨_, _, rfl⟩

/-- Base64 round-trip on byte lists: decoding an encoding recovers the
bytes. -/
theorem b64_roundtrip (l : List Nat) (h : ∀ b ∈ l, b < 256) :
    b64decode (b64encode l) = some l :=
  match l with
  | [] => rfl
  | [b0] => by
      have h0 : b0 < 256 := h b0 (by simp)
      have e0 := b64index_b64char (b0 / 4) (by omega)
      have e1 := b64index_b64char (b0 % 4 * 16) (by omega)
      simp [b64encode, b64decode, b64decodeLast, e0, e1]
      omega
  | [b0, b1] => by
      have h0 : b0 < 256 := h b0 (by simp)
      have h1 : b1 < 256 := h b1 (by simp)
      have e0 := b64index_b64char (b0 / 4) (by omega)
      have e1 := b64index_b64char (b0 % 4 * 16 + b1 / 16) (by omega)
      have e2 := b64index_b64char (b1 % 16 * 4) (by omega)
      have n2 := b64char_ne_pad (b1 % 16 * 4) (by omega)
      simp [b64encode, b64decode, b64decodeLast, e0, e1, e2, n2]
      omega
  | b0 :: b1 :: b2 :: rest => by
      have h0 : b0 < 256 := h b0 (by simp)
      have h1 : b1 < 256 := h b1 (by simp)
      have h2 : b2 < 256 := h b2 (by simp)
      have e0 := b64index_b64char (b0 / 4) (by omega)
      have e1 := b64index_b64char (b0 % 4 * 16 + b1 / 16) (by omega)
      have e2 := b64index_b64char (b1 % 16 * 4 + b2 / 64) (by omega)
      have e3 := b64index_b64char (b2 % 64) (by omega)
      match rest with
      | [] =>
          have n3 := b64char_ne_pad (b2 % 64) (by omega)
          simp [b64encode, b64decode, b64decodeLast, e0, e1, e2, e3, n3]
          omega
      | r :: rs =>
          have ih := b64_roundtrip (r :: rs) (fun b hb => h b (by simp at hb ⊢; tauto))
          obtain ⟨x, xs, hx⟩ := b64encode_cons (r :: rs) (by simp)
          rw [show b64encode (b0 :: b1 :: b2 :: r :: rs) =
                b64char (b0 / 4) :: b64char (b0 % 4 * 16 + b1 / 16) ::
                b64char (b1 % 16 * 4 + b2 / 64) :: b64char (b2 % 64) ::
                b64encode (r :: rs) from rfl, hx]
          rw [hx] at ih
          simp [b64decode, e0, e1, e2, e3, ih]
          omega

/-- Looking up a freshly set document returns the stored record. -/
theorem Store.get_set (s : Store) (docId : String) (v : Strategy) :
    Store.get (Store.set s docId v) docId = some v := by
  simp [Store.get, Store.set, List.lookup]

/-- Looking up a deleted document returns nothing. -/
theorem Store.get_del (s : Store) (docId : String) :
    Store.get (Store.del s docId) docId = none := by
  induction s with
  | nil => rfl
  | cons p rest ih =>
      obtain ⟨k, v⟩ := p
      rw [Store.del, List.filter_cons]
      by_cases hk : k = docId
      · subst hk
        simpa [Store.del] using ih
      · have hbne : ((k, v).1 != docId) = true := by simp [hk]
        have hbeq : (docId == k) = false := by
          simp [beq_eq_false_iff_ne]
          exact fun h => hk h.symm
        rw [hbne]
        simp only [if_true]
        rw [Store.get, List.lookup, hbeq]
        exact ih

/-! ## Claim theorems -/

/-- C1: for every bar series and every bar index, evaluating an empty
ConditionGroup (no member conditions) or an empty TradeRule (no groups, or
only empty groups) yields false at that index, regardless of the bar
series contents and of the per-condition evaluator. -/
theorem empty_group_and_rule_evaluate_false
    (evalCond : List Bar → StrategyCondition → Nat → Bool)
    (bars : List Bar) (i : Nat) (g : ConditionGroup) (r : TradeRule)
    (hg : g.conditions = [])
    (hr : r.conditionGroups = [] ∨ ∀ g₀ ∈ r.conditionGroups, g₀.conditions = []) :
    evalGroup evalCond bars g i = false ∧ evalRule evalCond bars r i = false := by
  have hgroup : ∀ g₀ : ConditionGroup, g₀.conditions = [] →
      evalGroup evalCond bars g₀ i = false := by
    intro g₀ hg₀
    simp [evalGroup, hg₀]
  refine ⟨hgroup g hg, ?_⟩
  rcases hr with hr | hr
  · simp [evalRule, hr]
  · cases hcg : r.conditionGroups with
    | nil => simp [evalRule, hcg]
    | cons g0 gs =>
        have hall : ∀ x ∈ g0 :: gs, evalGroup evalCond bars x i = false := by
          intro x hx
          exact hgroup x (hr x (hcg ▸ hx))
        cases hop : r.operator with
        | AND =>
            have h0 : evalGroup evalCond bars g0 i = false := hall g0 (by simp)
            simp [evalRule, hcg, hop, List.all_cons, h0]
        | OR =>
            simp only [evalRule, hcg, hop]
            rw [List.any_eq_false]
            intro x hx
            simp [hall x hx]

/-- C1 witness: a concrete empty group and a rule whose single group is
empty evaluate to false on a concrete bar series. -/
theorem empty_group_and_rule_evaluate_false_witness :
    evalGroup (fun _ _ _ => true) [] { id := "g", conditions := [], operator := LogicalOperator.AND } 0 = false ∧
    evalRule (fun _ _ _ => true) []
      { id := "r", type := SignalType.BUY,
        conditionGroups := [{ id := "g", conditions := [], operator := LogicalOperator.OR }],
        operator := LogicalOperator.AND } 0 = false :=
  empty_group_and_rule_evaluate_false (fun _ _ _ => true) [] 0
    { id := "g", conditions := [], operator := LogicalOperator.AND }
    { id := "r", type := SignalType.BUY,
      conditionGroups := [{ id := "g", conditions := [], operator := LogicalOperator.OR }],
      operator := LogicalOperator.AND }
    rfl (Or.inr (by intro g₀ hg₀; simp at hg₀; rw [hg₀]))

/-- C2: each operation that sets a comparison target (choosing an
indicator target, choosing the literal target, changing the left
indicator) and the condition constructor leave the condition with exactly
one active target: either the literal state with no right-hand indicator
data, or the indicator state with its default parameters and the literal
value cleared to zero. -/
theorem comparison_target_exclusive (c : StrategyCondition) (t : IndicatorType)
    (newId : String) :
    exclusiveTarget (handleIndicatorChange c t) ∧
    exclusiveTarget (handleValueTypeChange c (some t)) ∧
    exclusiveTarget (handleValueTypeChange c none) ∧
    exclusiveTarget (newCondition newId) :=
  ⟨Or.inl ⟨rfl, rfl⟩, Or.inr ⟨t, rfl, rfl, rfl⟩, Or.inl ⟨rfl, rfl⟩, Or.inl ⟨rfl, rfl⟩⟩

/-- The payload carried by a save action. -/
def saveData : SaveAction → StrategyData
  | SaveAction.create d => d
  | SaveAction.update _ d => d

/-- The update payload updateStrategy receives from handleSave in edit
mode: every field of the strategy payload, all present. -/
def toUpdate (d : StrategyData) : StrategyUpdate :=
  { name := some d.name
    description := some d.description
    buyRules := some d.buyRules
    sellRules := some d.sellRules
    moneyManagement := some d.moneyManagement
    isPublic := some d.isPublic
    tags := some d.tags }

/-- Demo fixtures used by the concrete witnesses below. -/
def demoGroup : ConditionGroup :=
  { id := "g1", conditions := [newCondition "c1"], operator := LogicalOperator.AND }

def demoBuyRule : TradeRule :=
  { id := "b1", type := SignalType.BUY, conditionGroups := [demoGroup],
    operator := LogicalOperator.AND }

def demoSellRule : TradeRule :=
  { id := "s1", type := SignalType.SELL, conditionGroups := [demoGroup],
    operator := LogicalOperator.AND }

def demoEmptyRule : TradeRule :=
  { id := "e1", type := SignalType.BUY, conditionGroups := [],
    operator := LogicalOperator.AND }

def demoMM : MoneyManagement :=
  { initialCapital := 10000000, positionSizing := 20, maxPositions := 5,
    stopLoss := some 5, takeProfit := some 20 }

def demoStrategy : Strategy :=
  { id := "st1", name := "demo", description := "", createdAt := 1000,
    updatedAt := 1000, userId := "alice", buyRules := [demoBuyRule],
    sellRules := [demoSellRule], moneyManagement := demoMM, isPublic := false }

def demoStore : Store := [("st1", demoStrategy)]

/-- C3: every strategy payload that handleSave accepts carries exactly one
buy rule and one sell rule, and the record persisted from it (by
createStrategy, or by updateStrategy in edit mode) still carries exactly
one of each. -/
theorem saved_strategy_has_single_buy_and_sell_rule
    (editId : Option String) (name description userId : String)
    (buyRule sellRule : TradeRule) (mm : MoneyManagement) (isPublic : Bool)
    (tags : List String) (a : SaveAction)
    (h : handleSave editId name description userId buyRule sellRule mm isPublic tags =
      Except.ok a) :
    (saveData a).buyRules.length = 1 ∧ (saveData a).sellRules.length = 1 ∧
    (∀ s now gid, ∃ st,
        getStrategy (createStrategy s now gid (saveData a)).1 gid = some st ∧
        st.buyRules.length = 1 ∧ st.sellRules.length = 1) ∧
    (∀ s now sid old, Store.get s sid = some old → ∃ st,
        updateStrategy s now sid (toUpdate (saveData a)) =
          Except.ok (Store.set s sid st) ∧
        st.buyRules.length = 1 ∧ st.sellRules.length = 1) := by
  have hdata : (saveData a).buyRules = [buyRule] ∧ (saveData a).sellRules = [sellRule] := by
    unfold handleSave at h
    split_ifs at h
    · cases editId with
      | some sid =>
          simp only [Except.ok.injEq] at h
          subst h
          exact ⟨rfl, rfl⟩
      | none =>
          simp only [Except.ok.injEq] at h
          subst h
          exact ⟨rfl, rfl⟩
    · cases editId with
      | some sid =>
          simp only [Except.ok.injEq] at h
          subst h
          exact ⟨rfl, rfl⟩
      | none =>
          simp only [Except.ok.injEq] at h
          subst h
          exact ⟨rfl, rfl⟩
  obtain ⟨hb, hs⟩ := hdata
  refine ⟨by rw [hb]; rfl, by rw [hs]; rfl, ?_, ?_⟩
  · intro s now gid
    refine ⟨_, Store.get_set s gid _, ?_, ?_⟩
    · simp [createStrategy, hb]
    · simp [createStrategy, hs]
  · intro s now sid old hold
    refine ⟨applyUpdate old (toUpdate (saveData a)) now, ?_, ?_, ?_⟩
    · simp [updateStrategy, hold]
    · simp [applyUpdate, toUpdate, hb]
    · simp [applyUpdate, toUpdate, hs]

/-- C3 witness: a concrete successful save of a fully configured strategy
yields a payload and stored records with exactly one buy and one sell
rule. -/
theorem saved_strategy_has_single_buy_and_sell_rule_witness :
    (saveData (SaveAction.create
      { name := "demo", description := "", userId := "alice",
        buyRules := [demoBuyRule], sellRules := [demoSellRule],
        moneyManagement := demoMM, isPublic := false, tags := none })).buyRules.length = 1 ∧
    (saveData (SaveAction.create
      { name := "demo", description := "", userId := "alice",
        buyRules := [demoBuyRule], sellRules := [demoSellRule],
        moneyManagement := demoMM, isPublic := false, tags := none })).sellRules.length = 1 ∧
    (∀ s now gid, ∃ st,
        getStrategy (createStrategy s now gid (saveData (SaveAction.create
          { name := "demo", description := "", userId := "alice",
            buyRules := [demoBuyRule], sellRules := [demoSellRule],
            moneyManagement := demoMM, isPublic := false, tags := none }))).1 gid = some st ∧
        st.buyRules.length = 1 ∧ st.sellRules.length = 1) ∧
    (∀ s now sid old, Store.get s sid = some old → ∃ st,
        updateStrategy s now sid (toUpdate (saveData (SaveAction.create
          { name := "demo", description := "", userId := "alice",
            buyRules := [demoBuyRule], sellRules := [demoSellRule],
            moneyManagement := demoMM, isPublic := false, tags := none }))) =
          Except.ok (Store.set s sid st) ∧
        st.buyRules.length = 1 ∧ st.sellRules.length = 1) :=
  saved_strategy_has_single_buy_and_sell_rule none "demo" "" "alice"
    demoBuyRule demoSellRule demoMM false [] _ rfl

/-- C5: a save attempt whose buy rule or sell rule is empty (no condition
groups, or some group without conditions) is rejected with a configuration
error and produces no create or update action. -/
theorem empty_rule_save_rejected
    (editId : Option String) (name description userId : String)
    (buyRule sellRule : TradeRule) (mm : MoneyManagement) (isPublic : Bool)
    (tags : List String)
    (h : ruleIncomplete buyRule = true ∨ ruleIncomplete sellRule = true) :
    ∃ e, handleSave editId name description userId buyRule sellRule mm isPublic tags =
      Except.error e := by
  unfold handleSave
  split_ifs with h1 h2 h3 h4
  · exact ⟨SaveError.emptyName, rfl⟩
  · exact ⟨SaveError.emptyBuyRule, rfl⟩
  · exact ⟨SaveError.emptySellRule, rfl⟩
  all_goals
    cases h with
    | inl h => exact absurd h h2
    | inr h => exact absurd h h3

/-- C5 witness: saving with a concrete empty buy rule is rejected. -/
theorem empty_rule_save_rejected_witness :
    ruleIncomplete demoEmptyRule = true ∧
    ∃ e, handleSave none "demo" "" "alice" demoEmptyRule demoSellRule demoMM
      false [] = Except.error e :=
  ⟨by decide,
   empty_rule_save_rejected none "demo" "" "alice" demoEmptyRule demoSellRule
     demoMM false [] (Or.inl (by decide))⟩

/-- The store produced by flipping the demo strategy public at time 2000
through updateStrategy. -/
def demoStoreAfterUpdate : Store :=
  Store.set demoStore "st1"
    (applyUpdate demoStrategy { isPublic := some true } 2000)

/-- C4 counterexample: the strategy stored under st1 is owned by alice,
yet a mutation carrying no caller identity at all (none exists in the
service API) succeeds and changes the stored record, and deleteStrategy
removes it outright; nothing rejects a non-owner. -/
theorem non_owner_mutation_succeeds_counterexample :
    demoStrategy.userId = "alice" ∧
    getStrategy demoStore "st1" = some demoStrategy ∧
    updateStrategy demoStore 2000 "st1" { isPublic := some true } =
      Except.ok demoStoreAfterUpdate ∧
    getStrategy demoStoreAfterUpdate "st1" ≠ some demoStrategy ∧
    getStrategy (deleteStrategy demoStore "st1") "st1" = none := by
  refine ⟨rfl, rfl, rfl, ?_, rfl⟩
  decide

/-- C4 amended: the service takes no caller identity and checks no
ownership; updateStrategy and setStrategyVisibility succeed on every
existing document regardless of its stored userId, and deleteStrategy
always removes the document. -/
theorem mutations_unconditional_on_owner (s : Store) (now : Nat)
    (sid : String) (u : StrategyUpdate) (b : Bool) (old : Strategy)
    (hold : Store.get s sid = some old) :
    updateStrategy s now sid u = Except.ok (Store.set s sid (applyUpdate old u now)) ∧
    setStrategyVisibility s now sid b =
      Except.ok (Store.set s sid { old with isPublic := b, updatedAt := now }) ∧
    getStrategy (deleteStrategy s sid) sid = none := by
  refine ⟨?_, ?_, ?_⟩
  · simp [updateStrategy, hold]
  · simp [setStrategyVisibility, hold]
  · exact Store.get_del s sid

/-- C4 amended witness: the demo store mutations applied concretely. -/
theorem mutations_unconditional_on_owner_witness :
    updateStrategy demoStore 2000 "st1" { isPublic := some true } =
      Except.ok (Store.set demoStore "st1"
        (applyUpdate demoStrategy { isPublic := some true } 2000)) ∧
    setStrategyVisibility demoStore 2000 "st1" true =
      Except.ok (Store.set demoStore "st1"
        { demoStrategy with isPublic := true, updatedAt := 2000 }) ∧
    getStrategy (deleteStrategy demoStore "st1") "st1" = none :=
  mutations_unconditional_on_owner demoStore 2000 "st1"
    { isPublic := some true } true demoStrategy rfl

/-- C6: createStrategy stores the record under the generated id with
matching creation and update timestamps; updateStrategy and
setStrategyVisibility stamp the mutation time into updatedAt and leave
createdAt untouched; deleteStrategy removes the record outright, leaving
nothing behind under the id. -/
theorem strategy_lifecycle_timestamps (s : Store) (now : Nat)
    (gid sid : String) (d : StrategyData) (u : StrategyUpdate) (b : Bool)
    (old : Strategy) (hold : Store.get s sid = some old) :
    ((createStrategy s now gid d).2 = gid ∧
     ∃ st, getStrategy (createStrategy s now gid d).1 gid = some st ∧
       st.id = gid ∧ st.createdAt = now ∧ st.updatedAt = now) ∧
    ((applyUpdate old u now).updatedAt = now ∧
     (applyUpdate old u now).createdAt = old.createdAt ∧
     updateStrategy s now sid u =
       Except.ok (Store.set s sid (applyUpdate old u now))) ∧
    (∃ st₂, setStrategyVisibility s now sid b = Except.ok (Store.set s sid st₂) ∧
       st₂.updatedAt = now ∧ st₂.createdAt = old.createdAt) ∧
    getStrategy (deleteStrategy s sid) sid = none := by
  refine ⟨⟨rfl, _, Store.get_set s gid _, rfl, rfl, rfl⟩, ⟨rfl, rfl, ?_⟩, ?_, ?_⟩
  · simp [updateStrategy, hold]
  · refine ⟨{ old with isPublic := b, updatedAt := now }, ?_, rfl, rfl⟩
    simp [setStrategyVisibility, hold]
  · exact Store.get_del s sid

/-- C6 witness: the lifecycle statements evaluated on the demo store. -/
theorem strategy_lifecycle_timestamps_witness :
    (((createStrategy demoStore 2000 "new1"
        { name := "n", description := "", userId := "alice",
          buyRules := [demoBuyRule], sellRules := [demoSellRule],
          moneyManagement := demoMM, isPublic := false, tags := none }).2 = "new1" ∧
      ∃ st, getStrategy (createStrategy demoStore 2000 "new1"
        { name := "n", description := "", userId := "alice",
          buyRules := [demoBuyRule], sellRules := [demoSellRule],
          moneyManagement := demoMM, isPublic := false, tags := none }).1 "new1" = some st ∧
        st.id = "new1" ∧ st.createdAt = 2000 ∧ st.updatedAt = 2000) ∧
     ((applyUpdate demoStrategy { name := some "renamed" } 2000).updatedAt = 2000 ∧
      (applyUpdate demoStrategy { name := some "renamed" } 2000).createdAt =
        demoStrategy.createdAt ∧
      updateStrategy demoStore 2000 "st1" { name := some "renamed" } =
        Except.ok (Store.set demoStore "st1"
          (applyUpdate demoStrategy { name := some "renamed" } 2000))) ∧
     (∃ st₂, setStrategyVisibility demoStore 2000 "st1" true =
        Except.ok (Store.set demoStore "st1" st₂) ∧
        st₂.updatedAt = 2000 ∧ st₂.createdAt = demoStrategy.createdAt) ∧
     getStrategy (deleteStrategy demoStore "st1") "st1" = none) :=
  strategy_lifecycle_timestamps demoStore 2000 "new1" "st1"
    { name := "n", description := "", userId := "alice",
      buyRules := [demoBuyRule], sellRules := [demoSellRule],
      moneyManagement := demoMM, isPublic := false, tags := none }
    { name := some "renamed" } true demoStrategy rfl

/-- C9: getStrategy yields none (not an error) on every id with no stored
document, and in particular on any id just removed by deleteStrategy. -/
theorem get_missing_strategy_is_none (s s₀ : Store) (sid : String)
    (h : Store.get s sid = none) :
    getStrategy s sid = none ∧
    getStrategy (deleteStrategy s₀ sid) sid = none :=
  ⟨h, Store.get_del s₀ sid⟩

/-- C9 witness: a concrete absent id and a concrete deletion. -/
theorem get_missing_strategy_is_none_witness :
    getStrategy demoStore "ghost" = none ∧
    getStrategy (deleteStrategy demoStore "st1") "st1" = none :=
  get_missing_strategy_is_none demoStore demoStore "ghost" rfl

/-- C7: every GET response of the historical-bars handler (hence every
successful data response) carries a 24-hour (86400 second) cache
lifetime, and every GET response of the quote handler carries a 60-second
cache lifetime. -/
theorem proxy_cache_lifetimes (rateAllowed upstreamOk : Bool)
    (symbol interval : Option (List Char)) :
    (historyHandler Method.GET rateAllowed symbol interval upstreamOk).cacheControl =
      some (86400, 60) ∧
    (quoteHandler Method.GET rateAllowed symbol upstreamOk).cacheControl =
      some (60, 60) := by
  constructor
  · unfold historyHandler
    cases symbol with
    | none => cases rateAllowed <;> simp [setCacheHeaders]
    | some sym =>
        cases rateAllowed <;> simp [setCacheHeaders]
        all_goals split_ifs <;> rfl
  · unfold quoteHandler
    cases symbol with
    | none => cases rateAllowed <;> simp [setCacheHeaders]
    | some sym =>
        cases rateAllowed <;> simp [setCacheHeaders]
        all_goals split_ifs <;> rfl

/-- C10: a quote request naming more than 20 symbols is rejected with
HTTP 400 before any upstream fetch, while a request naming between 1 and
20 well-formed symbols passes the limit and reaches the upstream fetch. -/
theorem quote_symbol_limit (sym : List Char) (upstreamOk : Bool) :
    ((splitComma sym).length > 20 →
      quoteHandler Method.GET true (some sym) upstreamOk =
        { status := 400, cacheControl := some (60, 60), corsSet := true,
          fetched := false }) ∧
    (1 ≤ (splitComma sym).length → (splitComma sym).length ≤ 20 →
      (∀ p ∈ splitComma sym, validSymbol p = true) →
      (quoteHandler Method.GET true (some sym) upstreamOk).fetched = true) := by
  constructor
  · intro hgt
    unfold quoteHandler
    simp only [setCacheHeaders]
    have h0 : ¬(splitComma sym).length = 0 := by omega
    simp [h0, hgt]
  · intro h1 h20 hvalid
    unfold quoteHandler
    simp only [setCacheHeaders]
    have h0 : ¬(splitComma sym).length = 0 := by omega
    have hle : ¬(splitComma sym).length > 20 := by omega
    have hall : (splitComma sym).all validSymbol = true := by
      rw [List.all_eq_true]
      exact hvalid
    cases upstreamOk <;> simp [h0, hle, hall]

/-- C10 witness: a 21-symbol request is rejected with 400 and no fetch,
and a two-symbol request reaches the fetch. -/
theorem quote_symbol_limit_witness :
    (quoteHandler Method.GET true
      (some ("A,A,A,A,A,A,A,A,A,A,A,A,A,A,A,A,A,A,A,A,A".data)) true =
        { status := 400, cacheControl := some (60, 60), corsSet := true,
          fetched := false }) ∧
    (quoteHandler Method.GET true (some ("AAPL,MSFT".data)) true).fetched = true :=
  ⟨(quote_symbol_limit ("A,A,A,A,A,A,A,A,A,A,A,A,A,A,A,A,A,A,A,A,A".data) true).1
     (by decide),
   (quote_symbol_limit ("AAPL,MSFT".data) true).2 (by decide) (by decide) (by decide)⟩

/-- C8: decrypting the output of encryptData with the same password
recovers the original string, for any primitives in which PBKDF2 is the
deterministic function the code calls, AES-GCM decryption inverts
encryption under the same key and IV, and text decoding inverts text
encoding on the data at hand; the wrapper logic (base64 round-trips of
ciphertext, salt and IV, and re-derivation of the same key from the
decoded salt) is proved concretely. -/
theorem encrypt_decrypt_roundtrip (P : CryptoPrims) (data password : String)
    (salt iv : List Nat)
    (hsalt : ∀ b ∈ salt, b < 256) (hiv : ∀ b ∈ iv, b < 256)
    (hct : ∀ b ∈ P.aesGcmEncrypt (P.deriveKey password salt) iv (P.utf8encode data),
       b < 256)
    (hdec : P.aesGcmDecrypt (P.deriveKey password salt) iv
        (P.aesGcmEncrypt (P.deriveKey password salt) iv (P.utf8encode data)) =
      some (P.utf8encode data))
    (hutf : P.utf8decode (P.utf8encode data) = data) :
    decryptData P (encryptData P data password salt iv).encryptedData
      (encryptData P data password salt iv).salt
      (encryptData P data password salt iv).iv password = some data := by
  unfold encryptData decryptData
  dsimp only
  rw [b64_roundtrip _ hct, b64_roundtrip _ hsalt, b64_roundtrip _ hiv]
  dsimp only [Option.bind]
  rw [hdec]
  dsimp only [Option.map]
  rw [hutf]

/-- Concrete primitives for the C8 witness: character codes as the text
codec, the salt itself as the derived key, and the identity cipher. -/
def demoPrims : CryptoPrims :=
  { utf8encode := fun s => s.data.map Char.toNat
    utf8decode := fun l => String.mk (l.map Char.ofNat)
    deriveKey := fun _ salt => salt
    aesGcmEncrypt := fun _ _ m => m
    aesGcmDecrypt := fun _ _ c => some c }

/-- C8 witness: a concrete encrypt/decrypt round-trip. -/
theorem encrypt_decrypt_roundtrip_witness :
    decryptData demoPrims
      (encryptData demoPrims "ok" "pw" (List.range 16) (List.range 12)).encryptedData
      (encryptData demoPrims "ok" "pw" (List.range 16) (List.range 12)).salt
      (encryptData demoPrims "ok" "pw" (List.range 16) (List.range 12)).iv
      "pw" = some "ok" :=
  encrypt_decrypt_roundtrip demoPrims "ok" "pw" (List.range 16) (List.range 12)
    (by decide) (by decide) (by decide) rfl (by decide)

end CoreQuant
